import Mathlib

/-!
# TruthGuard backend: shallow embedding and verification

This file embeds the content-analysis pipeline of the TruthGuard backend
(`controllers/checkController.js`) in Lean 4 and proves properties of it.

JavaScript numbers are modelled by `JsNum`: either NaN, a signed infinity, or
an exact rational.  All arithmetic appearing in the source is translated to
`JsNum` operations with JavaScript semantics (NaN poisoning, division by zero
producing infinities or NaN, `Math.min`/`Math.max` returning NaN on NaN
inputs, `Math.round x = ⌊x + 1/2⌋`).  Finite values are exact rationals; IEEE
rounding error is abstracted away.

Text is modelled as `List Char`.  The regular expressions of the source are
translated pattern by pattern into explicit scanners with JavaScript `g`-flag
semantics (leftmost match, resume after the match end, advance one character
on failure).
-/

set_option maxRecDepth 400000

/-- A JavaScript number: NaN, +∞, -∞, or a finite (exact rational) value. -/
inductive JsNum where
  | nan : JsNum
  | posInf : JsNum
  | negInf : JsNum
  | num : ℚ → JsNum
deriving DecidableEq

namespace JsNum

/-- JavaScript addition. -/
def add : JsNum → JsNum → JsNum
  | nan, _ => nan
  | _, nan => nan
  | posInf, negInf => nan
  | negInf, posInf => nan
  | posInf, _ => posInf
  | _, posInf => posInf
  | negInf, _ => negInf
  | _, negInf => negInf
  | num a, num b => num (a + b)

/-- JavaScript subtraction. -/
def sub : JsNum → JsNum → JsNum
  | nan, _ => nan
  | _, nan => nan
  | posInf, posInf => nan
  | negInf, negInf => nan
  | posInf, _ => posInf
  | negInf, _ => negInf
  | _, posInf => negInf
  | _, negInf => posInf
  | num a, num b => num (a - b)

/-- JavaScript multiplication (`±∞ * 0 = NaN`). -/
def mul : JsNum → JsNum → JsNum
  | nan, _ => nan
  | _, nan => nan
  | posInf, posInf => posInf
  | posInf, negInf => negInf
  | negInf, posInf => negInf
  | negInf, negInf => posInf
  | posInf, num b => if b = 0 then nan else if 0 < b then posInf else negInf
  | num a, posInf => if a = 0 then nan else if 0 < a then posInf else negInf
  | negInf, num b => if b = 0 then nan else if 0 < b then negInf else posInf
  | num a, negInf => if a = 0 then nan else if 0 < a then negInf else posInf
  | num a, num b => num (a * b)

/-- JavaScript division (`x/0` is `±∞` for `x ≠ 0` and `NaN` for `x = 0`;
rationals have no negative zero, so `x/0` takes the sign of `x`). -/
def div : JsNum → JsNum → JsNum
  | nan, _ => nan
  | _, nan => nan
  | posInf, posInf => nan
  | posInf, negInf => nan
  | negInf, posInf => nan
  | negInf, negInf => nan
  | posInf, num b => if 0 ≤ b then posInf else negInf
  | negInf, num b => if 0 ≤ b then negInf else posInf
  | num _, posInf => num 0
  | num _, negInf => num 0
  | num a, num b =>
      if b = 0 then (if a = 0 then nan else if 0 < a then posInf else negInf)
      else num (a / b)

/-- JavaScript `Math.min` of two values (NaN if either argument is NaN). -/
def min2 : JsNum → JsNum → JsNum
  | nan, _ => nan
  | _, nan => nan
  | negInf, _ => negInf
  | _, negInf => negInf
  | posInf, b => b
  | a, posInf => a
  | num a, num b => num (min a b)

/-- JavaScript `Math.max` of two values (NaN if either argument is NaN). -/
def max2 : JsNum → JsNum → JsNum
  | nan, _ => nan
  | _, nan => nan
  | posInf, _ => posInf
  | _, posInf => posInf
  | negInf, b => b
  | a, negInf => a
  | num a, num b => num (max a b)

/-- JavaScript `Math.round`: half-way cases round toward +∞, i.e.
`Math.round x = ⌊x + 1/2⌋` for finite `x`. -/
def round : JsNum → JsNum
  | nan => nan
  | posInf => posInf
  | negInf => negInf
  | num a => num (⌊a + 1/2⌋ : ℤ)

/-- JavaScript `>=` comparison as a boolean (false whenever NaN is involved). -/
def ge : JsNum → JsNum → Bool
  | nan, _ => false
  | _, nan => false
  | posInf, _ => true
  | _, posInf => false
  | _, negInf => true
  | negInf, _ => false
  | num a, num b => decide (b ≤ a)

/-- JavaScript `>` comparison as a boolean (false whenever NaN is involved). -/
def gt : JsNum → JsNum → Bool
  | nan, _ => false
  | _, nan => false
  | posInf, posInf => false
  | posInf, _ => true
  | _, posInf => false
  | negInf, negInf => false
  | _, negInf => true
  | negInf, _ => false
  | num a, num b => decide (b < a)

end JsNum

/-- Lift a possibly-absent JSON number (JavaScript `undefined`) into `JsNum`:
arithmetic on `undefined` yields NaN. -/
def jsOfOpt : Option ℚ → JsNum
  | none => JsNum.nan
  | some q => JsNum.num q

/-! ## Text utilities -/

/-- Text is a list of characters. -/
abbrev Text := List Char

/-- The characters matched by the JavaScript regex class `\s`
(ASCII whitespace plus the common Unicode space characters). -/
def isSpaceJs (c : Char) : Bool :=
  c = ' ' ∨ c = '\t' ∨ c = '\n' ∨ c = '\r' ∨ c.toNat = 11 ∨ c.toNat = 12 ∨
  c.toNat = 0xa0 ∨ c.toNat = 0xfeff ∨ (0x2000 ≤ c.toNat ∧ c.toNat ≤ 0x200a) ∨
  c.toNat = 0x1680 ∨ c.toNat = 0x2028 ∨ c.toNat = 0x2029 ∨ c.toNat = 0x202f ∨
  c.toNat = 0x205f ∨ c.toNat = 0x3000

/-- The characters matched by the JavaScript regex class `\w`. -/
def isWordChar (c : Char) : Bool :=
  ('a' ≤ c ∧ c ≤ 'z') ∨ ('A' ≤ c ∧ c ≤ 'Z') ∨ ('0' ≤ c ∧ c ≤ '9') ∨ c = '_'

/-- ASCII digit. -/
def isDigitJs (c : Char) : Bool := '0' ≤ c ∧ c ≤ '9'

/-- Case-fold one character the way `String.prototype.toLowerCase` does on
ASCII input. -/
def lcChar (c : Char) : Char := c.toLower

/-- Case-fold a text. -/
def lcText (s : Text) : Text := s.map lcChar

/-- Helper for `splitRuns`: `cur` is the (reversed) segment being built,
`prevSep` records whether the previous character belonged to a separator run.
Structurally recursive so that the kernel can evaluate it. -/
def splitRunsAux (p : Char → Bool) : Text → Bool → Text → List Text
  | cur, _, [] => [cur.reverse]
  | cur, prevSep, c :: rest =>
      if p c then
        if prevSep then splitRunsAux p cur true rest
        else cur.reverse :: splitRunsAux p [] true rest
      else splitRunsAux p (c :: cur) false rest

/-- `JsString.split(regex)` where the regex matches maximal nonempty runs of
characters satisfying `p`: the list of (possibly empty) segments between the
separator runs, as produced by `"a b".split(/\s+/)` in JavaScript. -/
def splitRuns (p : Char → Bool) (s : Text) : List Text :=
  splitRunsAux p [] false s

/-- Does `pat` occur (case-insensitively) as a prefix of `s`? -/
def isPrefixCI (pat s : Text) : Bool :=
  lcText pat = lcText (s.take pat.length) ∧ pat.length ≤ s.length

/-- First alternative of `alts` that matches (case-insensitively) at the head
of `s`, returning its length — the commit behaviour of a JavaScript regex
alternation whose branches need no cross-branch backtracking. -/
def matchAltsCI (alts : List Text) (s : Text) : Option Nat :=
  alts.findSome? fun pat => if isPrefixCI pat s then some pat.length else none

/-- Match a single literal character. -/
def matchLit (c : Char) (s : Text) : Option Nat :=
  if s.head? = some c then some 1 else none

/-- A pattern matcher: given the character before the current position (for
`\b` assertions) and the remaining text, return the length of the match at
this position together with the text of capture group 1, if any. -/
abbrev Matcher := Option Char → Text → Option (Nat × Option Text)

/-- Fuelled worker for `scanMatches`; the fuel is structurally consumed once
per step, and every step drops at least one character, so fuel equal to the
text length is always enough. -/
def scanMatchesF (m : Matcher) : Nat → Option Char → Text → List (Text × Option Text)
  | 0, _, _ => []
  | _, _, [] => []
  | fuel + 1, prev, c :: rest =>
      match m prev (c :: rest) with
      | some (len, cap) =>
          let step := max len 1
          ((c :: rest).take len, cap) ::
            scanMatchesF m fuel ((c :: rest).get? (step - 1)) ((c :: rest).drop step)
      | none => scanMatchesF m fuel (some c) rest

/-- `String.prototype.matchAll` over one pattern: scan left to right, at each
position try the matcher; on success emit (match text, capture) and resume
after the match; on failure advance one character. -/
def scanMatches (m : Matcher) (s : Text) : List (Text × Option Text) :=
  scanMatchesF m s.length none s

/-- Does the matcher match anywhere in the text (`RegExp.prototype.test`)? -/
def testPattern (m : Matcher) (s : Text) : Bool :=
  ¬ (scanMatches m s = [])

/-- Number of matches of one pattern in the text (`String.prototype.match`
with the `g` flag, counting the result array). -/
def countPattern (m : Matcher) (s : Text) : Nat :=
  (scanMatches m s).length

/-! ## Similarity matcher and News Verifier adapter -/

/-- Deduplicate keeping first occurrences (the iteration/insertion order of a
JavaScript `Set`), with an accumulator of already-seen elements. -/
def dedupKeepFirstAux {α : Type} [DecidableEq α] (seen : List α) : List α → List α
  | [] => []
  | x :: xs =>
      if x ∈ seen then dedupKeepFirstAux seen xs
      else x :: dedupKeepFirstAux (x :: seen) xs

/-- Deduplicate keeping first occurrences. -/
def dedupKeepFirst {α : Type} [DecidableEq α] (l : List α) : List α :=
  dedupKeepFirstAux [] l

/-- `calculateSimilarity(str1, str2)` from the source: 0 if either string is
falsy; otherwise the number of tokens of `str1` (with repetitions) that occur
among the tokens of `str2`, divided by the number of distinct tokens of the
two strings together.  Tokens come from `toLowerCase().split(/\s+/)`. -/
def calculateSimilarity (str1 str2 : Text) : JsNum :=
  if str1 = [] ∨ str2 = [] then .num 0
  else
    let words1 := splitRuns isSpaceJs (lcText str1)
    let words2 := splitRuns isSpaceJs (lcText str2)
    let intersection := words1.filter (fun word => words2.contains word)
    let union := dedupKeepFirst (words1 ++ words2)
    JsNum.div (.num intersection.length) (.num union.length)

/-- An article returned by the news search index (`article.source` is
modelled by the `source.name` string the code reads). -/
structure Article where
  title : Text
  description : Text
  source : Text
  url : Text
  publishedAt : Text
deriving DecidableEq

/-- Outcome of the `axios.get` call to the news index: a rejection with a
message, or a response with a status string and an article list. -/
inductive NewsOutcome where
  | fail (msg : Text)
  | resp (status : Text) (articles : List Article)
deriving DecidableEq

/-- The per-article projection stored in `matchedArticles`. -/
structure MatchedArticle where
  title : Text
  source : Text
  url : Text
  publishedAt : Text
deriving DecidableEq

/-- The value returned by `verifyWithNewsAPI`; `errorMsg` models the `error`
property, present only on the result built in the `catch` branch. -/
structure NewsVerificationResult where
  isVerified : Bool
  confidence : JsNum
  matchedArticles : List MatchedArticle
  errorMsg : Option Text
deriving DecidableEq

/-- The keyword query string sent to the news index: words longer than four
characters, first five, joined with `" OR "`. -/
def newsKeywords (content : Text) : Text :=
  List.intercalate " OR ".toList
    (((splitRuns isSpaceJs content).filter (fun word => word.length > 4)).take 5)

/-- `verifyWithNewsAPI(content)` from the source, as a function of the
outcome of its single network call. -/
def verifyWithNewsAPI (content : Text) (outcome : NewsOutcome) :
    NewsVerificationResult :=
  match outcome with
  | .fail msg =>
      { isVerified := false, confidence := .num 0, matchedArticles := [],
        errorMsg := some msg }
  | .resp status articles =>
      if status = "ok".toList ∧ articles.length > 0 then
        let similarityScores := articles.map (fun article =>
          JsNum.max2 (calculateSimilarity content article.title)
            (calculateSimilarity content article.description))
        let maxSimilarity := similarityScores.foldl JsNum.max2 .negInf
        { isVerified := JsNum.gt maxSimilarity (.num (6/10)),
          confidence := JsNum.round (JsNum.mul maxSimilarity (.num 100)),
          matchedArticles := (articles.take 3).map (fun article =>
            ⟨article.title, article.source, article.url, article.publishedAt⟩),
          errorMsg := none }
      else
        { isVerified := false, confidence := .num 0, matchedArticles := [],
          errorMsg := none }

/-! ## Signal extractor: extractNewsSource

Each regex in the source's `sourcePatterns` table is translated into an
explicit matcher.  Alternations whose branches are plain literals use
first-match commit order (the order of the source's alternation); the one
pattern needing real backtracking — the `([a-zA-Z0-9-]+\.)*` star of the
News Website rule — gets a fuelled backtracking matcher. -/

/-- The alternation of the Major News Agency pattern, in source order. -/
def majorAgencies : List Text :=
  (["Reuters", "Associated Press", "AP", "AFP", "BBC News", "CNN", "Fox News",
    "MSNBC", "Al Jazeera", "The New York Times", "Washington Post",
    "The Guardian", "USA Today", "Wall Street Journal", "Bloomberg", "NPR",
    "CBC News", "NBC News", "ABC News", "CBS News"]).map String.toList

/-- Matcher for the Major News Agency pattern (`match[0]` is used, so no
capture is recorded). -/
def agencyMatcher : Matcher := fun _ s =>
  (matchAltsCI majorAgencies s).map (fun n => (n, none))

/-- Verb alternatives of the Social Media pattern; `according to sources?`
is expanded into its greedy order. -/
def socialVerbs : List Text :=
  (["reported", "posted", "shared", "announced", "stated", "published",
    "revealed", "according to sources", "according to source"]).map
    String.toList

/-- Preposition alternatives of the Social Media pattern. -/
def socialPreps : List Text := (["on", "via", "through", "in"]).map String.toList

/-- Platform alternatives (the capture group) of the Social Media pattern. -/
def socialPlatforms : List Text :=
  (["Twitter", "Facebook", "Instagram", "LinkedIn", "YouTube", "TikTok", "X",
    "Thread"]).map String.toList

/-- Matcher for the Social Media pattern: verb, space, preposition, space,
captured platform. -/
def socialMatcher : Matcher := fun _ s =>
  match matchAltsCI socialVerbs s with
  | none => none
  | some n1 =>
      match matchLit ' ' (s.drop n1) with
      | none => none
      | some _ =>
          let s2 := s.drop (n1 + 1)
          match matchAltsCI socialPreps s2 with
          | none => none
          | some n2 =>
              match matchLit ' ' (s2.drop n2) with
              | none => none
              | some _ =>
                  let s3 := s2.drop (n2 + 1)
                  match matchAltsCI socialPlatforms s3 with
                  | none => none
                  | some n3 => some (n1 + 1 + n2 + 1 + n3, some (s3.take n3))

/-- The mandatory alternation of the News Website pattern. -/
def webTlds : List Text := (["news", "com", "org", "gov", "edu"]).map String.toList

/-- The character class `[a-zA-Z0-9-]` of the News Website pattern. -/
def domChar (c : Char) : Bool :=
  ('a' ≤ c ∧ c ≤ 'z') ∨ ('A' ≤ c ∧ c ≤ 'Z') ∨ ('0' ≤ c ∧ c ≤ '9') ∨ c = '-'

/-- Tail of the News Website pattern: `(news|com|org|gov|edu)(\/[^\s]*)?`. -/
def webTail (s : Text) : Option Nat :=
  match matchAltsCI webTlds s with
  | none => none
  | some n =>
      match s.drop n with
      | '/' :: r2 => some (n + 1 + (r2.takeWhile (fun c => ¬ isSpaceJs c)).length)
      | _ => some n

/-- Greedy `([a-zA-Z0-9-]+\.)*` followed by `webTail`, with backtracking:
try one more star iteration first (a maximal `[a-zA-Z0-9-]+` run followed by
a dot), fall back to the tail at this position.  Fuel bounds the recursion;
each iteration consumes at least two characters, so the text length is
always enough fuel. -/
def webStarF : Nat → Text → Option Nat
  | 0, s => webTail s
  | fuel + 1, s =>
      let run := (s.takeWhile domChar).length
      if run ≥ 1 ∧ s.get? run = some '.' then
        match webStarF fuel (s.drop (run + 1)) with
        | some m => some (run + 1 + m)
        | none => webTail s
      else webTail s

/-- Matcher for the News Website pattern, including the optional
`(www\.|https?:\/\/)?` prefix (candidate prefixes in greedy order, empty
prefix last). -/
def webMatcher : Matcher := fun _ s =>
  let tryFrom : Nat → Option Nat := fun pfx =>
    (webStarF s.length (s.drop pfx)).map (pfx + ·)
  let cands : List Nat :=
    (if isPrefixCI "www.".toList s then [4] else []) ++
    (if isPrefixCI "https://".toList s then [8] else []) ++
    (if isPrefixCI "http://".toList s then [7] else []) ++ [0]
  (cands.findSome? tryFrom).map (fun n => (n, none))

/-- Capture `([^,.]+)`: a maximal nonempty run of characters other than
comma and dot. -/
def capUpToCommaDot (s : Text) : Option (Nat × Text) :=
  let cap := s.takeWhile (fun c => ¬ (c = ',' ∨ c = '.'))
  if cap.length ≥ 1 then some (cap.length, cap) else none

/-- Matcher for the `(?:phrases) ([^,.]+)` shape shared by the Cited Source
and Official Source patterns. -/
def phraseCapMatcher (phrases : List Text) : Matcher := fun _ s =>
  match matchAltsCI phrases s with
  | none => none
  | some n =>
      match matchLit ' ' (s.drop n) with
      | none => none
      | some _ =>
          match capUpToCommaDot (s.drop (n + 1)) with
          | none => none
          | some (m, cap) => some (n + 1 + m, some cap)

/-- Attribution phrases of the Cited Source pattern. -/
def citedPhrases : List Text :=
  (["according to", "as reported by", "sources from", "cited by",
    "confirmed by", "stated by", "revealed by", "announced by"]).map
    String.toList

/-- Phrases of the Official Source pattern. -/
def officialPhrases : List Text :=
  (["officials from", "spokesperson for", "representatives of",
    "statement from"]).map String.toList

/-- First alternation of the Local News pattern. -/
def localFirstWords : List Text :=
  (["local", "regional", "city", "county", "state"]).map String.toList

/-- Second alternation of the Local News pattern. -/
def localSecondWords : List Text :=
  (["news", "media", "press", "reports", "sources"]).map String.toList

/-- Matcher for the Local News pattern: locality word, space, outlet word,
space, captured `[^,.]+`. -/
def localMatcher : Matcher := fun _ s =>
  match matchAltsCI localFirstWords s with
  | none => none
  | some n1 =>
      match matchLit ' ' (s.drop n1) with
      | none => none
      | some _ =>
          let s2 := s.drop (n1 + 1)
          match matchAltsCI localSecondWords s2 with
          | none => none
          | some n2 =>
              match matchLit ' ' (s2.drop n2) with
              | none => none
              | some _ =>
                  match capUpToCommaDot (s2.drop (n2 + 1)) with
                  | none => none
                  | some (m, cap) => some (n1 + 1 + n2 + 1 + m, some cap)

/-- Characters stripped from both ends of a raw source match by
`replace(/^[\s,."']+|[\s,."']+$/g, '')`. -/
def isStripChar (c : Char) : Bool :=
  isSpaceJs c ∨ c = ',' ∨ c = '.' ∨ c = '"' ∨ c = Char.ofNat 39

/-- Strip leading and trailing runs of punctuation/space characters. -/
def stripEnds (s : Text) : Text :=
  ((s.dropWhile isStripChar).reverse.dropWhile isStripChar).reverse

/-- The boilerplate attribution words removed (case-insensitively, at every
occurrence) by the second `replace` of the source-name cleanup. -/
def boilerplateWords : List Text :=
  (["reported by", "according to", "sources from", "reported on", "posted on",
    "via", "through", "in"]).map String.toList

/-- Fuelled global replace-with-empty of the boilerplate words: scan left to
right, drop a recognized word and resume after it, otherwise keep the
character. -/
def removeAllF : Nat → Text → Text
  | 0, s => s
  | fuel + 1, s =>
      match s with
      | [] => []
      | c :: rest =>
          match matchAltsCI boilerplateWords s with
          | some n => removeAllF fuel (s.drop (max n 1))
          | none => c :: removeAllF fuel rest

/-- `String.prototype.trim`. -/
def trimJs (s : Text) : Text :=
  ((s.dropWhile isSpaceJs).reverse.dropWhile isSpaceJs).reverse

/-- The full cleanup applied to a raw source name: strip punctuation/space
from the ends, remove boilerplate words, trim. -/
def cleanSource (s : Text) : Text :=
  let t := stripEnds s
  trimJs (removeAllF t.length t)

/-- An extracted source entry `{name, type, confidence}`. -/
structure ExtractedSource where
  name : Text
  type : Text
  confidence : Text
deriving DecidableEq

/-- The confidence tier assigned to each pattern type. -/
def sourceTypeConfidence (t : Text) : Text :=
  if t = "Major News Agency".toList then "High".toList
  else if t = "Official Source".toList then "High".toList
  else if t = "News Website".toList then "Medium".toList
  else "Low".toList

/-- The raw source text taken from a match: `match[0]` for Major News Agency
and News Website, otherwise `match[1] || match[0]`. -/
def pickSourceText (ty : Text) (m : Text × Option Text) : Text :=
  if ty = "Major News Agency".toList ∨ ty = "News Website".toList then m.1
  else
    match m.2 with
    | some cap => if cap = [] then m.1 else cap
    | none => m.1

/-- Process one raw match: clean it, and append it unless it is empty or its
lower-cased name was already seen.  The accumulator carries the seen-set and
the output list in insertion order. -/
def addSource (ty : Text) (acc : List Text × List ExtractedSource)
    (m : Text × Option Text) : List Text × List ExtractedSource :=
  let source := cleanSource (pickSourceText ty m)
  if source ≠ [] ∧ ¬ (acc.1.contains (lcText source)) then
    (lcText source :: acc.1, acc.2 ++ [⟨source, ty, sourceTypeConfidence ty⟩])
  else acc

/-- The ordered pattern table of `extractNewsSource`. -/
def sourcePatternList : List (Matcher × Text) :=
  [(agencyMatcher, "Major News Agency".toList),
   (socialMatcher, "Social Media".toList),
   (webMatcher, "News Website".toList),
   (phraseCapMatcher citedPhrases, "Cited Source".toList),
   (phraseCapMatcher officialPhrases, "Official Source".toList),
   (localMatcher, "Local News".toList)]

/-- Numeric value of a confidence tier, as in the sort comparator. -/
def confOrder (c : Text) : Nat :=
  if c = "High".toList then 3 else if c = "Medium".toList then 2
  else if c = "Low".toList then 1 else 0

/-- Stable insertion (descending by confidence tier): the new element goes
after every element with a greater-or-equal tier, preserving first-seen
order among ties — the behaviour of the stable `Array.prototype.sort` with
comparator `confOrder b - confOrder a`. -/
def insertByConf (x : ExtractedSource) : List ExtractedSource → List ExtractedSource
  | [] => [x]
  | y :: ys =>
      if confOrder y.confidence ≥ confOrder x.confidence then y :: insertByConf x ys
      else x :: y :: ys

/-- `extractNewsSource(content)` from the source: run every pattern in
order, clean and deduplicate the matches, then stable-sort by confidence
tier descending. -/
def extractNewsSource (content : Text) : List ExtractedSource :=
  let collected := (sourcePatternList.foldl (fun acc p =>
    (scanMatches p.1 content).foldl (addSource p.2) acc) ([], [])).2
  collected.foldl (fun acc x => insertByConf x acc) []

/-! ## Signal extractors: quotes, dates, statistics, citations, complexity -/

/-- Matcher for a quote pattern `q([^q]+)q` with a single delimiter
character `q` (the four patterns of `extractQuotes` all have this shape). -/
def quoteMatcher (q : Char) : Matcher := fun _ s =>
  match s with
  | [] => none
  | c :: rest =>
      if c = q then
        let cap := rest.takeWhile (fun d => ¬ d = q)
        if cap.length ≥ 1 ∧ rest.get? cap.length = some q then
          some (cap.length + 2, some cap)
        else none
      else none

/-- The four quote patterns of `extractQuotes`, in source order: the third
and fourth are byte-for-byte duplicates of the first and second. -/
def quotePatterns : List Matcher :=
  [quoteMatcher '"', quoteMatcher (Char.ofNat 39),
   quoteMatcher '"', quoteMatcher (Char.ofNat 39)]

/-- `extractQuotes(content)`: capture group contents of every pattern, in
pattern-then-position order, no deduplication. -/
def extractQuotes (content : Text) : List Text :=
  quotePatterns.foldl
    (fun acc m => acc ++ (scanMatches m content).filterMap (fun r => r.2)) []

/-- `\b` assertion against the previous character. -/
def notWordBefore (prev : Option Char) : Bool :=
  match prev with
  | none => true
  | some c => ¬ isWordChar c

/-- `\b` assertion at offset `i` of the remaining text. -/
def notWordAt (s : Text) (i : Nat) : Bool :=
  match s.get? i with
  | none => true
  | some c => ¬ isWordChar c

/-- Are the `n` characters starting at offset `i` all digits? -/
def digitsAt (s : Text) (i n : Nat) : Bool :=
  let t := (s.drop i).take n
  t.length = n ∧ t.all isDigitJs

/-- Matcher for `\b\d{1,2}\/\d{1,2}\/\d{2,4}\b`.  A greedy bounded digit
quantifier followed by a non-digit reduces to: the maximal digit run is
within the bound and the required character follows it (backtracking to a
shorter run always leaves a digit where the delimiter is required). -/
def dateSlashMatcher : Matcher := fun prev s =>
  if ¬ notWordBefore prev then none else
  let r1 := (s.takeWhile isDigitJs).length
  if ¬ (1 ≤ r1 ∧ r1 ≤ 2) then none else
  if ¬ (s.get? r1 = some '/') then none else
  let s2 := s.drop (r1 + 1)
  let r2 := (s2.takeWhile isDigitJs).length
  if ¬ (1 ≤ r2 ∧ r2 ≤ 2) then none else
  if ¬ (s2.get? r2 = some '/') then none else
  let s3 := s2.drop (r2 + 1)
  let r3 := (s3.takeWhile isDigitJs).length
  if ¬ (2 ≤ r3 ∧ r3 ≤ 4) then none else
  if ¬ notWordAt s3 r3 then none else
  some (r1 + 1 + r2 + 1 + r3, none)

/-- Matcher for `\b\d{4}-\d{2}-\d{2}\b` (fixed-width fields). -/
def dateIsoMatcher : Matcher := fun prev s =>
  if notWordBefore prev ∧ digitsAt s 0 4 ∧ s.get? 4 = some '-' ∧
      digitsAt s 5 2 ∧ s.get? 7 = some '-' ∧ digitsAt s 8 2 ∧ notWordAt s 10
  then some (10, none) else none

/-- Month-name alternatives of the third date pattern (case-sensitive: that
regex has no `i` flag). -/
def monthNames : List Text :=
  (["Jan", "Feb", "Mar", "Apr", "May", "Jun", "Jul", "Aug", "Sep", "Oct",
    "Nov", "Dec"]).map String.toList

/-- First case-sensitive alternative matching at the head of `s`. -/
def matchAltsCS (alts : List Text) (s : Text) : Option Nat :=
  alts.findSome? fun pat => if s.take pat.length = pat then some pat.length else none

/-- Matcher for `\b(?:Jan|...|Dec)[a-z]* \d{1,2},? \d{4}\b`. -/
def dateMonthMatcher : Matcher := fun prev s =>
  if ¬ notWordBefore prev then none else
  match matchAltsCS monthNames s with
  | none => none
  | some n1 =>
      let letters := ((s.drop n1).takeWhile (fun c => 'a' ≤ c ∧ c ≤ 'z')).length
      let pos := n1 + letters
      if ¬ (s.get? pos = some ' ') then none else
      let s2 := s.drop (pos + 1)
      let r := (s2.takeWhile isDigitJs).length
      if ¬ (1 ≤ r ∧ r ≤ 2) then none else
      let afterDay : Option Nat :=
        if s2.get? r = some ',' then
          if s2.get? (r + 1) = some ' ' then some (r + 2) else none
        else if s2.get? r = some ' ' then some (r + 1) else none
      match afterDay with
      | none => none
      | some k =>
          let s3 := s2.drop k
          if digitsAt s3 0 4 ∧ notWordAt s3 4 then
            some (pos + 1 + k + 4, none)
          else none

/-- `extractDates(content)`: full matches of the three date patterns,
concatenated in pattern-then-position order. -/
def extractDates (content : Text) : List Text :=
  [dateSlashMatcher, dateIsoMatcher, dateMonthMatcher].foldl
    (fun acc m => acc ++ (scanMatches m content).map (fun r => r.1)) []

/-- Matcher for a case-insensitive literal phrase. -/
def litMatcherCI (pat : Text) : Matcher := fun _ s =>
  if isPrefixCI pat s then some (pat.length, none) else none

/-- Matcher for `\[\d+\]`. -/
def bracketNumMatcher : Matcher := fun _ s =>
  match s with
  | '[' :: rest =>
      let r := (rest.takeWhile isDigitJs).length
      if r ≥ 1 ∧ rest.get? r = some ']' then some (r + 2, none) else none
  | _ => none

/-- Matcher for `\(\d{4}\)`. -/
def parenYearMatcher : Matcher := fun _ s =>
  match s with
  | '(' :: rest =>
      if digitsAt rest 0 4 ∧ rest.get? 4 = some ')' then some (6, none) else none
  | _ => none

/-- The citation patterns of `countCitations`, in source order. -/
def citationMatchers : List Matcher :=
  [litMatcherCI "according to".toList, litMatcherCI "cited by".toList,
   litMatcherCI "reported by".toList, litMatcherCI "source:".toList,
   bracketNumMatcher, parenYearMatcher]

/-- `countCitations(content)`: total number of matches across the citation
patterns (double counting across patterns is the source's behaviour). -/
def countCitations (content : Text) : Nat :=
  citationMatchers.foldl (fun acc m => acc + countPattern m content) 0

/-- Matcher for `\d+%`. -/
def percentMatcher : Matcher := fun _ s =>
  let r := (s.takeWhile isDigitJs).length
  if r ≥ 1 ∧ s.get? r = some '%' then some (r + 1, none) else none

/-- Matcher for `\$\d+(?:\.\d{2})?`. -/
def dollarMatcher : Matcher := fun _ s =>
  match s with
  | '$' :: rest =>
      let r := (rest.takeWhile isDigitJs).length
      if r ≥ 1 then
        if rest.get? r = some '.' ∧ digitsAt rest (r + 1) 2 then
          some (1 + r + 3, none)
        else some (1 + r, none)
      else none
  | _ => none

/-- Magnitude words of the `\d+ (?:million|billion|trillion)` pattern. -/
def magnitudeWords : List Text :=
  (["million", "billion", "trillion"]).map String.toList

/-- Matcher for `\d+ (?:million|billion|trillion)` (case-insensitive). -/
def magnitudeMatcher : Matcher := fun _ s =>
  let r := (s.takeWhile isDigitJs).length
  if r ≥ 1 ∧ s.get? r = some ' ' then
    (matchAltsCI magnitudeWords (s.drop (r + 1))).map (fun n => (r + 1 + n, none))
  else none

/-- Matcher for `increased by|\bdecreased by|\bgrew by` (case-insensitive;
only the second and third alternatives carry a `\b`). -/
def trendMatcher : Matcher := fun prev s =>
  if isPrefixCI "increased by".toList s then some (12, none)
  else if notWordBefore prev ∧ isPrefixCI "decreased by".toList s then
    some (12, none)
  else if notWordBefore prev ∧ isPrefixCI "grew by".toList s then
    some (7, none)
  else none

/-- Matcher for `statistics show|according to data|survey shows`
(case-insensitive). -/
def statRefMatcher : Matcher := fun _ s =>
  (matchAltsCI
    ((["statistics show", "according to data", "survey shows"]).map
      String.toList) s).map (fun n => (n, none))

/-- `hasStatistics(content)`: does any of the five statistics patterns match
anywhere? -/
def hasStatistics (content : Text) : Bool :=
  [percentMatcher, dollarMatcher, magnitudeMatcher, trendMatcher,
   statRefMatcher].any (fun m => testPattern m content)

/-- Connective words of the complex-word pattern. -/
def complexConnectives : List Text :=
  (["therefore", "however", "furthermore", "consequently",
    "nevertheless"]).map String.toList

/-- Matcher for `\b\w{10,}\b|\b(?:therefore|however|furthermore|consequently|nevertheless)\b`
(case-insensitive): at a word boundary, the maximal `\w` run matches if it
has at least ten characters or is exactly one of the connectives. -/
def complexWordMatcher : Matcher := fun prev s =>
  if ¬ notWordBefore prev then none else
  let run := (s.takeWhile isWordChar).length
  if run ≥ 10 then some (run, none)
  else if run ≥ 1 ∧ complexConnectives.contains (lcText (s.take run)) then
    some (run, none)
  else none

/-- Sentence-separator characters (`split(/[.!?]+/)`). -/
def isSentenceSep (c : Char) : Bool := c = '.' ∨ c = '!' ∨ c = '?'

/-- `calculateTextComplexity(text)` from the source.  All divisions are
JavaScript divisions: an all-whitespace text has zero words, `0/0 = NaN`
contaminates the result; a text whose only non-separator characters form
words but no sentence (impossible here) would give `∞`. -/
def calculateTextComplexity (text : Text) : JsNum :=
  let words := (splitRuns isSpaceJs text).filter (fun w => w.length > 0)
  let sentences :=
    (splitRuns isSentenceSep text).filter (fun s => s.length > 0)
  let avgWordLength :=
    JsNum.div (.num (words.foldl (fun sum w => sum + (w.length : ℚ)) 0))
      (.num words.length)
  let avgSentenceLength := JsNum.div (.num words.length) (.num sentences.length)
  let complexWords := countPattern complexWordMatcher text
  let lengthScore :=
    JsNum.mul (JsNum.min2 (JsNum.div avgWordLength (.num 8)) (.num 1))
      (.num (3/10))
  let sentenceScore :=
    JsNum.mul (JsNum.min2 (JsNum.div avgSentenceLength (.num 25)) (.num 1))
      (.num (3/10))
  let complexityScore :=
    JsNum.mul
      (JsNum.min2
        (JsNum.div (.num complexWords)
          (JsNum.mul (.num words.length) (.num (1/10)))) (.num 1))
      (.num (4/10))
  JsNum.add (JsNum.add lengthScore sentenceScore) complexityScore

/-- The `ContentFactors` record built by `analyzeContentFactors`. -/
structure ContentFactors where
  length : Nat
  complexity : JsNum
  citations : Nat
  quotes : List Text
  dates : List Text
  statistics : Bool
deriving DecidableEq

/-- `analyzeContentFactors(content)` from the source. -/
def analyzeContentFactors (content : Text) : ContentFactors :=
  ⟨content.length, calculateTextComplexity content, countCitations content,
   extractQuotes content, extractDates content, hasStatistics content⟩

/-- `getReliabilityLevel(score)` from the source; on NaN every comparison is
false and the result is `'unreliable'`. -/
def getReliabilityLevel (score : JsNum) : Text :=
  if JsNum.ge score (.num 80) then "highly reliable".toList
  else if JsNum.ge score (.num 60) then "reliable".toList
  else if JsNum.ge score (.num 40) then "moderately reliable".toList
  else if JsNum.ge score (.num 20) then "somewhat unreliable".toList
  else "unreliable".toList

/-! ## The analysis pipeline: checkContent

`checkContent` is embedded as a pure function of the request content and of
the outcomes of its four external calls (two zero-shot classification calls,
the Mistral assessment, the NewsAPI search).  `Promise.all` rejection is
modelled by propagating the first error among the settled outcomes; the
`catch` block turns it into the 500 response. -/

/-- The outcome of an external call that may reject. -/
inductive Outcome (α : Type) where
  | ok (val : α)
  | fail (msg : Text)

/-- The data of a zero-shot classification response: index-aligned labels
and scores (scores are finite JSON numbers, modelled as rationals). -/
structure ClassifierResponse where
  labels : List Text
  scores : List ℚ
deriving DecidableEq

/-- The parsed Mistral JSON object; each field may be absent
(`undefined`), in which case arithmetic on it yields NaN. -/
structure MistralResult where
  credibilityScore : Option ℚ
  truthScore : Option ℚ
  confidence : Option ℚ
deriving DecidableEq

/-- `labels.indexOf(lab)` followed by `scores[idx]`: `indexOf` returns -1 on
a missing label and `scores[-1]` is `undefined`, so the result is NaN
whenever the label is absent (or the index is out of the scores array). -/
def scoreAt (labels : List Text) (scores : List ℚ) (lab : Text) : JsNum :=
  match labels.findIdx? (fun l => l = lab) with
  | none => .nan
  | some i =>
      match scores.get? i with
      | none => .nan
      | some q => .num q

/-- `combineScores(score1, score2, weight1 = 0.6, weight2 = 0.4)` from the
source. -/
def combineScores (score1 score2 : JsNum) (weight1 : JsNum := .num (6/10))
    (weight2 : JsNum := .num (4/10)) : JsNum :=
  JsNum.round (JsNum.add (JsNum.mul score1 weight1) (JsNum.mul score2 weight2))

/-- The `verificationResult.details` object. -/
structure ScoreDetails where
  factualScore : JsNum
  misleadingScore : JsNum
  falseScore : JsNum
  opinionScore : JsNum
deriving DecidableEq

/-- The `verificationResult` object of the report. -/
structure VerificationInfo where
  labels : List Text
  scores : List JsNum
  primaryClassification : Option Text
  details : ScoreDetails
deriving DecidableEq

/-- The `credibilityMetrics.reliability` object. -/
structure ReliabilityInfo where
  score : JsNum
  label : Text
  confidence : JsNum
deriving DecidableEq

/-- The `credibilityMetrics.contentQuality` object. -/
structure ContentQuality where
  complexity : JsNum
  citations : Nat
  hasQuotes : Bool
  hasDates : Bool
  hasStatistics : Bool
deriving DecidableEq

/-- The `credibilityMetrics` object. -/
structure CredibilityMetrics where
  credibilityScore : JsNum
  truthScore : JsNum
  reliability : ReliabilityInfo
  contentQuality : ContentQuality
deriving DecidableEq

/-- The `contentAnalysis` object. -/
structure ContentAnalysis where
  isNews : Bool
  contentType : Option Text
  confidence : JsNum
  factors : ContentFactors
deriving DecidableEq

/-- The `sourceAnalysis` object. -/
structure SourceAnalysis where
  sources : List ExtractedSource
  hasIdentifiableSources : Bool
  primarySource : Option ExtractedSource
  sourceCount : Nat
  sourceTypes : List Text
deriving DecidableEq

/-- The `newsVerification` object of the combined result. -/
structure NewsVerification where
  isVerified : Bool
  confidence : JsNum
  matchedArticles : List MatchedArticle
  verdict : Text
deriving DecidableEq

/-- The `combinedMetrics` object of the combined result. -/
structure CombinedMetrics where
  credibilityScore : JsNum
  truthScore : JsNum
  confidence : JsNum
  newsReliability : JsNum
deriving DecidableEq

/-- The combined result returned on success (the `timestamp` field is
outside the model). -/
structure CombinedResult where
  content : Text
  contentAnalysis : ContentAnalysis
  verificationResult : VerificationInfo
  sourceAnalysis : SourceAnalysis
  credibilityMetrics : CredibilityMetrics
  mistralAnalysis : MistralResult
  newsVerification : NewsVerification
  combinedMetrics : CombinedMetrics
deriving DecidableEq

/-- The HTTP-level response of the controller. -/
inductive ApiResponse where
  | badRequest (msg : Text)
  | serverError (details : Text)
  | okReport (r : CombinedResult)

/-- Build the combined result from the settled external data, mirroring the
body of `checkContent` after the `Promise.all` (lines 409-511 of the
controller). -/
def buildCombinedResult (content : Text) (newsClass factCheck : ClassifierResponse)
    (mistral : MistralResult) (newsApiResult : NewsVerificationResult) :
    CombinedResult :=
  let isNews := newsClass.labels.head? = some "news article".toList
  let contentType := newsClass.labels.head?
  let contentConfidence := jsOfOpt newsClass.scores.head?
  let scores := factCheck.scores
  let labels := factCheck.labels
  let factualScore := scoreAt labels scores "factual".toList
  let misleadingScore := scoreAt labels scores "misleading".toList
  let falseScore := scoreAt labels scores "false".toList
  let opinionScore := scoreAt labels scores "opinion".toList
  let credibilityScore :=
    JsNum.round (JsNum.sub (JsNum.sub (JsNum.mul factualScore (.num 100))
      (JsNum.mul misleadingScore (.num 50))) (JsNum.mul falseScore (.num 100)))
  let truthScore :=
    JsNum.round (JsNum.sub (JsNum.mul factualScore (.num 100))
      (JsNum.mul falseScore (.num 100)))
  let sources := extractNewsSource content
  let contentFactors := analyzeContentFactors content
  let confidencePct := JsNum.round (JsNum.mul contentConfidence (.num 100))
  { content := content
    contentAnalysis :=
      { isNews := isNews
        contentType := contentType
        confidence := confidencePct
        factors := contentFactors }
    verificationResult :=
      { labels := labels
        scores := scores.map (fun s => JsNum.round (JsNum.mul (.num s) (.num 100)))
        primaryClassification := labels.head?
        details :=
          { factualScore := JsNum.round (JsNum.mul factualScore (.num 100))
            misleadingScore := JsNum.round (JsNum.mul misleadingScore (.num 100))
            falseScore := JsNum.round (JsNum.mul falseScore (.num 100))
            opinionScore := JsNum.round (JsNum.mul opinionScore (.num 100)) } }
    sourceAnalysis :=
      { sources := sources
        hasIdentifiableSources := sources.length > 0
        primarySource := sources.head?
        sourceCount := sources.length
        sourceTypes := dedupKeepFirst (sources.map (fun s => s.type)) }
    credibilityMetrics :=
      { credibilityScore :=
          JsNum.max2 (.num 0) (JsNum.min2 (.num 100)
            (JsNum.add credibilityScore (.num 50)))
        truthScore :=
          JsNum.max2 (.num 0) (JsNum.min2 (.num 100)
            (JsNum.add truthScore (.num 50)))
        reliability :=
          { score := JsNum.round (JsNum.mul factualScore (.num 100))
            label := getReliabilityLevel credibilityScore
            confidence := confidencePct }
        contentQuality :=
          { complexity := contentFactors.complexity
            citations := contentFactors.citations
            hasQuotes := contentFactors.quotes.length > 0
            hasDates := contentFactors.dates.length > 0
            hasStatistics := contentFactors.statistics } }
    mistralAnalysis := mistral
    newsVerification :=
      { isVerified := newsApiResult.isVerified
        confidence := newsApiResult.confidence
        matchedArticles := newsApiResult.matchedArticles
        verdict := if newsApiResult.isVerified then "REAL".toList
                   else "POTENTIALLY FAKE".toList }
    combinedMetrics :=
      { credibilityScore :=
          combineScores
            (JsNum.max2 (.num 0) (JsNum.min2 (.num 100)
              (JsNum.add credibilityScore (.num 50))))
            (jsOfOpt mistral.credibilityScore)
        truthScore :=
          combineScores
            (JsNum.max2 (.num 0) (JsNum.min2 (.num 100)
              (JsNum.add truthScore (.num 50))))
            (jsOfOpt mistral.truthScore)
        confidence :=
          JsNum.round (JsNum.div
            (JsNum.add confidencePct (jsOfOpt mistral.confidence)) (.num 2))
        newsReliability := newsApiResult.confidence } }

/-- `checkContent(req, res)` as a function of the request content (absent or
empty content is falsy) and the outcomes of the external calls.  The news
verification itself never rejects (`verifyWithNewsAPI` catches); a rejection
of either classification call or of the Mistral call reaches the `catch`
block and produces the 500 response. -/
def checkContent (content : Option Text)
    (newsClass factCheck : Outcome ClassifierResponse)
    (mistral : Outcome MistralResult) (news : NewsOutcome) : ApiResponse :=
  match content with
  | none => .badRequest "Content is required".toList
  | some c =>
      if c = [] then .badRequest "Content is required".toList
      else
        match newsClass, factCheck, mistral with
        | .fail msg, _, _ => .serverError msg
        | _, .fail msg, _ => .serverError msg
        | _, _, .fail msg => .serverError msg
        | .ok nc, .ok fc, .ok m =>
            .okReport (buildCombinedResult c nc fc m (verifyWithNewsAPI c news))

/-- The report of a successful response, if any. -/
def apiReport : ApiResponse → Option CombinedResult
  | .okReport r => some r
  | _ => none

/-- The scenario input of the specification (§8). -/
def scenarioInput : Text :=
  "According to Reuters, officials confirmed 50% of votes were counted on 01/05/2024. \"It was fair,\" said the spokesperson.".toList

/-- The tokens of a string, as used by `calculateSimilarity`. -/
def simTokens (s : Text) : List Text := splitRuns isSpaceJs (lcText s)

/-- The factuality classification response of the specification's scenario:
labels `[factual, misleading, false, opinion, unverified]` with scores
`[0.7, 0.1, 0.05, 0.1, 0.05]`. -/
def scenarioFactuality : ClassifierResponse :=
  ⟨["factual".toList, "misleading".toList, "false".toList, "opinion".toList,
    "unverified".toList], [7/10, 1/10, 1/20, 1/10, 1/20]⟩

/-- The value is a finite integer in `[0, 100]`. -/
def intIn0100 (x : JsNum) : Prop :=
  ∃ k : ℤ, x = .num (k : ℚ) ∧ 0 ≤ k ∧ k ≤ 100

/-! ## Helper lemmas -/

theorem JsNum.add_num_num (a b : ℚ) : JsNum.add (.num a) (.num b) = .num (a + b) := rfl

theorem JsNum.sub_num_num (a b : ℚ) : JsNum.sub (.num a) (.num b) = .num (a - b) := rfl

theorem JsNum.mul_num_num (a b : ℚ) : JsNum.mul (.num a) (.num b) = .num (a * b) := rfl

theorem JsNum.min2_num_num (a b : ℚ) : JsNum.min2 (.num a) (.num b) = .num (min a b) := rfl

theorem JsNum.max2_num_num (a b : ℚ) : JsNum.max2 (.num a) (.num b) = .num (max a b) := rfl

theorem JsNum.round_num_eq (a : ℚ) :
    JsNum.round (.num a) = .num ((⌊a + 1/2⌋ : ℤ) : ℚ) := rfl

theorem JsNum.ge_num_num (a b : ℚ) : JsNum.ge (.num a) (.num b) = decide (b ≤ a) := rfl

theorem JsNum.div_num_num (a b : ℚ) (hb : b ≠ 0) :
    JsNum.div (.num a) (.num b) = .num (a / b) := by
  simp [JsNum.div, hb]

/-- `Math.round` of a rational in `[0, 100]` lies in `[0, 100]`. -/
theorem round_bounds (q : ℚ) (h0 : 0 ≤ q) (h1 : q ≤ 100) :
    (0 : ℤ) ≤ ⌊q + 1/2⌋ ∧ ⌊q + 1/2⌋ ≤ 100 := by
  constructor
  · exact Int.floor_nonneg.mpr (by linarith)
  · have h : q + 1/2 ≤ (201 : ℚ)/2 := by linarith
    have := Int.floor_le_floor h
    have h2 : ⌊(201 : ℚ)/2⌋ = 100 := by norm_num [Int.floor_eq_iff]
    omega

/-- The split helper always produces at least one segment. -/
theorem splitRunsAux_ne_nil (p : Char → Bool) (cur : Text) (b : Bool) (s : Text) :
    splitRunsAux p cur b s ≠ [] := by
  induction s generalizing cur b with
  | nil => simp [splitRunsAux]
  | cons c rest ih =>
      simp only [splitRunsAux]
      by_cases hc : p c
      · simp only [hc, if_true]
        by_cases hb : b
        · simpa [hb] using ih cur true
        · simp [hb]
      · simpa [hc] using ih (c :: cur) false

/-- `split` always produces at least one segment (JavaScript never returns
an empty array from `split` on a nonempty-separator regex). -/
theorem splitRuns_ne_nil (p : Char → Bool) (s : Text) : splitRuns p s ≠ [] :=
  splitRunsAux_ne_nil p [] false s

/-- Every output element of the dedup helper comes from the input and was
not previously seen. -/
theorem dedupKeepFirstAux_mem {α : Type} [DecidableEq α] {seen l : List α} {y : α}
    (hy : y ∈ dedupKeepFirstAux seen l) : y ∈ l ∧ y ∉ seen := by
  induction l generalizing seen with
  | nil => simp [dedupKeepFirstAux] at hy
  | cons x xs ih =>
      by_cases hx : x ∈ seen
      · simp only [dedupKeepFirstAux, if_pos hx] at hy
        have := ih hy
        exact ⟨List.mem_cons_of_mem _ this.1, this.2⟩
      · simp only [dedupKeepFirstAux, if_neg hx] at hy
        rcases List.mem_cons.mp hy with h | h
        · exact ⟨by simp [h], h ▸ hx⟩
        · have := ih h
          refine ⟨List.mem_cons_of_mem _ this.1, fun hc => this.2 ?_⟩
          exact List.mem_cons_of_mem _ hc

/-- The dedup helper returns a duplicate-free list. -/
theorem dedupKeepFirstAux_nodup {α : Type} [DecidableEq α] (seen l : List α) :
    (dedupKeepFirstAux seen l).Nodup := by
  induction l generalizing seen with
  | nil => simp [dedupKeepFirstAux]
  | cons x xs ih =>
      by_cases hx : x ∈ seen
      · simpa [dedupKeepFirstAux, hx] using ih seen
      · simp only [dedupKeepFirstAux, if_neg hx]
        refine List.nodup_cons.mpr ⟨fun hc => ?_, ih (x :: seen)⟩
        exact (dedupKeepFirstAux_mem hc).2 (by simp)

/-- The elements of the dedup helper's output are the unseen input elements. -/
theorem dedupKeepFirstAux_toFinset {α : Type} [DecidableEq α] (seen l : List α) :
    (dedupKeepFirstAux seen l).toFinset = l.toFinset \ seen.toFinset := by
  induction l generalizing seen with
  | nil => simp [dedupKeepFirstAux]
  | cons x xs ih =>
      by_cases hx : x ∈ seen
      · rw [dedupKeepFirstAux, if_pos hx, ih seen]
        ext y
        simp only [Finset.mem_sdiff, List.mem_toFinset, List.mem_cons]
        constructor
        · rintro ⟨h1, h2⟩
          exact ⟨Or.inr h1, h2⟩
        · rintro ⟨h1 | h1, h2⟩
          · exact absurd (h1 ▸ hx) h2
          · exact ⟨h1, h2⟩
      · rw [dedupKeepFirstAux, if_neg hx]
        simp only [List.toFinset_cons, ih (x :: seen)]
        ext y
        simp only [Finset.mem_insert, Finset.mem_sdiff, List.mem_toFinset,
          List.mem_cons, not_or]
        constructor
        · rintro (rfl | ⟨h1, h2, h3⟩)
          · exact ⟨Or.inl rfl, hx⟩
          · exact ⟨Or.inr h1, h3⟩
        · rintro ⟨rfl | h1, h2⟩
          · exact Or.inl rfl
          · by_cases hyx : y = x
            · exact Or.inl hyx
            · exact Or.inr ⟨h1, hyx, h2⟩

/-- Length of the deduplicated list is the number of distinct elements. -/
theorem dedupKeepFirst_length {α : Type} [DecidableEq α] (l : List α) :
    (dedupKeepFirst l).length = l.toFinset.card := by
  have h1 := dedupKeepFirstAux_nodup ([] : List α) l
  have h2 := dedupKeepFirstAux_toFinset ([] : List α) l
  rw [dedupKeepFirst, ← List.toFinset_card_of_nodup h1, h2]
  simp

/-- For a duplicate-free token list, the intersection count of
`calculateSimilarity` is the cardinality of the set intersection. -/
theorem filter_contains_length {w1 w2 : List Text} (hw1 : w1.Nodup) :
    (w1.filter (fun word => w2.contains word)).length =
      (w1.toFinset ∩ w2.toFinset).card := by
  have hnd : (w1.filter (fun word => w2.contains word)).Nodup :=
    hw1.filter _
  rw [← List.toFinset_card_of_nodup hnd]
  congr 1
  ext y
  simp [List.mem_toFinset, List.mem_filter, Finset.mem_inter]

/-- The union size of `calculateSimilarity` is the cardinality of the set
union. -/
theorem dedup_union_length (w1 w2 : List Text) :
    (dedupKeepFirst (w1 ++ w2)).length = (w1.toFinset ∪ w2.toFinset).card := by
  rw [dedupKeepFirst_length, List.toFinset_append]

/-- When the first string's token list is duplicate-free (and both strings
are nonempty), `calculateSimilarity` computes exactly the Jaccard index of
the two token sets. -/
theorem calculateSimilarity_jaccard (a b : Text) (ha : a ≠ []) (hb : b ≠ [])
    (hnd : (simTokens a).Nodup) :
    calculateSimilarity a b =
      .num ((((simTokens a).toFinset ∩ (simTokens b).toFinset).card : ℚ) /
            (((simTokens a).toFinset ∪ (simTokens b).toFinset).card : ℚ)) := by
  have hne : simTokens a ≠ [] := splitRuns_ne_nil _ _
  obtain ⟨x, hx⟩ := List.exists_mem_of_ne_nil _ hne
  have hcard : 0 < ((simTokens a).toFinset ∪ (simTokens b).toFinset).card := by
    refine Finset.card_pos.mpr ⟨x, ?_⟩
    exact Finset.mem_union_left _ (List.mem_toFinset.mpr hx)
  simp only [calculateSimilarity]
  rw [if_neg (show ¬ (a = [] ∨ b = []) by simp [ha, hb])]
  rw [show splitRuns isSpaceJs (lcText a) = simTokens a from rfl,
    show splitRuns isSpaceJs (lcText b) = simTokens b from rfl,
    filter_contains_length hnd, dedup_union_length, JsNum.div_num_num]
  exact_mod_cast hcard.ne.symm

/-! ## Claim theorems -/

/-- C9: `getReliabilityLevel` is total on every finite numeric input — it
returns one of the five labels — and every input strictly below 20
(including the negative unshifted credibility values down to -150) yields
`'unreliable'`. -/
theorem getReliabilityLevel_total_below20 (q : ℚ) :
    (getReliabilityLevel (.num q) = "highly reliable".toList ∨
     getReliabilityLevel (.num q) = "reliable".toList ∨
     getReliabilityLevel (.num q) = "moderately reliable".toList ∨
     getReliabilityLevel (.num q) = "somewhat unreliable".toList ∨
     getReliabilityLevel (.num q) = "unreliable".toList) ∧
    (q < 20 → getReliabilityLevel (.num q) = "unreliable".toList) := by
  unfold getReliabilityLevel
  simp only [JsNum.ge_num_num, decide_eq_true_eq]
  constructor
  · split_ifs <;> simp
  · intro hq
    have h80 : ¬ ((80 : ℚ) ≤ q) := by linarith
    have h60 : ¬ ((60 : ℚ) ≤ q) := by linarith
    have h40 : ¬ ((40 : ℚ) ≤ q) := by linarith
    have h20 : ¬ ((20 : ℚ) ≤ q) := by linarith
    simp [h80, h60, h40, h20]

/-- Witness for C9 at the extreme unshifted credibility value -150. -/
theorem getReliabilityLevel_total_below20_witness :
    getReliabilityLevel (.num (-150)) = "unreliable".toList :=
  (getReliabilityLevel_total_below20 (-150)).2 (by norm_num)

/-- C10: the degraded result built in the `catch` branch carries the failure
message in its `error` field, while the degraded zero-result shape carries
none, so the two shapes are distinguishable. -/
theorem degraded_results_distinguishable :
    (∀ content msg : Text,
      verifyWithNewsAPI content (.fail msg) =
        { isVerified := false, confidence := .num 0, matchedArticles := [],
          errorMsg := some msg }) ∧
    (∀ content : Text,
      verifyWithNewsAPI content (.resp "ok".toList []) =
        { isVerified := false, confidence := .num 0, matchedArticles := [],
          errorMsg := none }) := by
  exact ⟨fun content msg => rfl, fun content => rfl⟩

/-- C7: on every failure of the news verification — a thrown call, a
non-`ok` status, or zero results — the adapter returns the degraded result
`{isVerified: false, confidence: 0, matchedArticles: []}` instead of
throwing, and the pipeline still produces a report whenever both classifier
calls and the Mistral call succeed, whatever the news outcome. -/
theorem newsVerifier_degrades_gracefully :
    (∀ content msg : Text,
      (verifyWithNewsAPI content (.fail msg)).isVerified = false ∧
      (verifyWithNewsAPI content (.fail msg)).confidence = .num 0 ∧
      (verifyWithNewsAPI content (.fail msg)).matchedArticles = []) ∧
    (∀ (content status : Text) (articles : List Article),
      status ≠ "ok".toList ∨ articles = [] →
      (verifyWithNewsAPI content (.resp status articles)).isVerified = false ∧
      (verifyWithNewsAPI content (.resp status articles)).confidence = .num 0 ∧
      (verifyWithNewsAPI content (.resp status articles)).matchedArticles = []) ∧
    (∀ (c : Text) (nc fc : ClassifierResponse) (m : MistralResult)
        (news : NewsOutcome), c ≠ [] →
      ∃ r, checkContent (some c) (.ok nc) (.ok fc) (.ok m) news = .okReport r) := by
  refine ⟨fun content msg => ⟨rfl, rfl, rfl⟩, ?_, ?_⟩
  · intro content status articles h
    simp only [verifyWithNewsAPI]
    split
    · next hcond =>
        exfalso
        rcases h with h | h
        · exact h hcond.1
        · rw [h] at hcond
          exact absurd hcond.2 (by simp)
    · exact ⟨rfl, rfl, rfl⟩
  · intro c nc fc m news hc
    refine ⟨buildCombinedResult c nc fc m (verifyWithNewsAPI c news), ?_⟩
    show (if c = [] then ApiResponse.badRequest "Content is required".toList
          else ApiResponse.okReport
            (buildCombinedResult c nc fc m (verifyWithNewsAPI c news))) = _
    rw [if_neg hc]

/-- Witness for C7: a non-`ok` status degrades to confidence 0, and the
pipeline completes despite a thrown news call. -/
theorem newsVerifier_degrades_gracefully_witness :
    (verifyWithNewsAPI "x".toList (.resp "error".toList [])).confidence = .num 0 ∧
    (∃ r, checkContent (some "x".toList) (.ok ⟨[], []⟩) (.ok ⟨[], []⟩)
      (.ok ⟨none, none, none⟩) (.fail "net down".toList) = .okReport r) :=
  ⟨(newsVerifier_degrades_gracefully.2.1 "x".toList "error".toList []
      (Or.inl (by decide))).2.1,
   newsVerifier_degrades_gracefully.2.2 "x".toList ⟨[], []⟩ ⟨[], []⟩
     ⟨none, none, none⟩ (.fail "net down".toList) (by decide)⟩

/-- C8: `calculateSimilarity` exceeds 1 on concrete non-empty inputs (the
numerator counts the first string's tokens with repetitions), and the
verifier confidence `round(maxSimilarity*100)` correspondingly exceeds 100
for a concrete article list. -/
theorem similarity_gt_one_confidence_gt_100 :
    calculateSimilarity "x x".toList "x".toList = .num 2 ∧
    ¬ ((2 : ℚ) ≤ 1) ∧
    (verifyWithNewsAPI "x x".toList
      (.resp "ok".toList
        [⟨"x".toList, [], "src".toList, "u".toList, "p".toList⟩])).confidence =
      .num 200 ∧
    ¬ ((200 : ℚ) ≤ 100) := by
  with_unfolding_all decide

/-- Counterexample for C6: on the non-empty string `"x x"` the similarity of
the string with itself is 2, not 1. -/
theorem similarity_self_exceeds_one :
    "x x".toList ≠ [] ∧
    calculateSimilarity "x x".toList "x x".toList = .num 2 ∧
    JsNum.num (2 : ℚ) ≠ JsNum.num 1 := by
  with_unfolding_all decide

/-- C6 (amended): `similarity(a, "") = 0` always; `similarity(a, a) = 1`
for non-empty `a` whose token list is duplicate-free; and whenever the first
argument's token list is duplicate-free, `similarity` computes the Jaccard
index of the two token sets. -/
theorem similarity_spec_amended :
    (∀ a : Text, calculateSimilarity a [] = .num 0) ∧
    (∀ a : Text, a ≠ [] → (simTokens a).Nodup →
      calculateSimilarity a a = .num 1) ∧
    (∀ a b : Text, a ≠ [] → b ≠ [] → (simTokens a).Nodup →
      calculateSimilarity a b =
        .num ((((simTokens a).toFinset ∩ (simTokens b).toFinset).card : ℚ) /
              (((simTokens a).toFinset ∪ (simTokens b).toFinset).card : ℚ))) := by
  refine ⟨?_, ?_, fun a b ha hb hnd => calculateSimilarity_jaccard a b ha hb hnd⟩
  · intro a
    simp [calculateSimilarity]
  · intro a ha hnd
    rw [calculateSimilarity_jaccard a a ha ha hnd]
    have hne : simTokens a ≠ [] := splitRuns_ne_nil _ _
    obtain ⟨x, hx⟩ := List.exists_mem_of_ne_nil _ hne
    have hcard : 0 < (simTokens a).toFinset.card :=
      Finset.card_pos.mpr ⟨x, List.mem_toFinset.mpr hx⟩
    simp only [Finset.inter_self, Finset.union_self]
    rw [div_self]
    exact_mod_cast hcard.ne.symm

/-- Witness for C6 (amended) on a concrete duplicate-free input. -/
theorem similarity_spec_amended_witness :
    calculateSimilarity "a b".toList "a b".toList = .num 1 :=
  similarity_spec_amended.2.1 "a b".toList (by decide)
    (by with_unfolding_all decide)

/-- C5 (code bug): on the degenerate inputs — the empty string and
whitespace-only text, both of which have zero words — `calculateTextComplexity`
evaluates `0/0` and returns NaN, not the guarded value 0 the specification
requires. -/
theorem complexity_degenerate_is_nan :
    calculateTextComplexity "".toList = .nan ∧
    calculateTextComplexity "   ".toList = .nan := by
  with_unfolding_all decide

/-- Counterexample for C4: on the scenario input, source extraction yields
only the High-confidence Reuters entry — there is no Official Source entry,
because the text contains none of the official-source trigger phrases
(`officials from`, `spokesperson for`, ...) — and the extracted quote is
`"It was fair,"` (with the trailing comma, and twice, because the third and
fourth quote patterns duplicate the first and second), so the quote list
does not contain `"It was fair"`. -/
theorem scenario_extraction_concrete :
    extractNewsSource scenarioInput =
      [⟨"Reuters".toList, "Major News Agency".toList, "High".toList⟩] ∧
    extractQuotes scenarioInput =
      ["It was fair,".toList, "It was fair,".toList] := by
  with_unfolding_all decide

/-- C4 (amended): on the scenario input, source extraction yields exactly
one High-confidence Reuters entry of type Major News Agency (and no Official
Source entry); `hasStatistics` is true; the dates are exactly
`["01/05/2024"]`; and the quotes contain `"It was fair,"`. -/
theorem scenario_extraction_amended :
    extractNewsSource scenarioInput =
      [⟨"Reuters".toList, "Major News Agency".toList, "High".toList⟩] ∧
    hasStatistics scenarioInput = true ∧
    extractDates scenarioInput = ["01/05/2024".toList] ∧
    "It was fair,".toList ∈ extractQuotes scenarioInput := by
  with_unfolding_all decide

/-- C3 (code bug): when the factuality response lacks the label `factual`,
`indexOf` returns -1, `scores[-1]` is `undefined`, and the score arithmetic
silently produces NaN — the submission does not fail: a report is still
produced, with NaN (JSON `null`) in the score fields. -/
theorem missingLabel_yields_nan_report :
    (apiReport (checkContent (some "hello".toList)
      (.ok ⟨["news article".toList], [9/10]⟩)
      (.ok ⟨["misleading".toList, "false".toList, "opinion".toList,
             "unverified".toList], [4/10, 3/10, 2/10, 1/10]⟩)
      (.ok ⟨some 50, some 50, some 50⟩)
      (.resp "ok".toList []))).map
        (fun r => (r.combinedMetrics.credibilityScore,
                   r.combinedMetrics.truthScore,
                   r.verificationResult.details.factualScore)) =
      some (.nan, .nan, .nan) := by
  with_unfolding_all decide

/-- C2: the local fusion scores are exactly
`clamp₀₁₀₀(round(f*100 - m*50 - fa*100) + 50)` and
`clamp₀₁₀₀(round(f*100 - fa*100) + 50)` for the looked-up factuality scores,
and on the scenario response `[0.7, 0.1, 0.05, 0.1, 0.05]` both reported
local scores are 100. -/
theorem localFusion_formula_and_scenario :
    (∀ (content : Text) (nc fc : ClassifierResponse) (m : MistralResult)
        (nv : NewsVerificationResult) (f mi fa : ℚ),
      scoreAt fc.labels fc.scores "factual".toList = .num f →
      scoreAt fc.labels fc.scores "misleading".toList = .num mi →
      scoreAt fc.labels fc.scores "false".toList = .num fa →
      (buildCombinedResult content nc fc m nv).credibilityMetrics.credibilityScore =
        .num (max 0 (min 100
          (((⌊f * 100 - mi * 50 - fa * 100 + 1/2⌋ : ℤ) : ℚ) + 50))) ∧
      (buildCombinedResult content nc fc m nv).credibilityMetrics.truthScore =
        .num (max 0 (min 100 (((⌊f * 100 - fa * 100 + 1/2⌋ : ℤ) : ℚ) + 50)))) ∧
    ((buildCombinedResult "hello".toList ⟨["news article".toList], [9/10]⟩
        scenarioFactuality ⟨some 50, some 50, some 50⟩
        ⟨false, .num 0, [], none⟩).credibilityMetrics.credibilityScore =
      .num 100 ∧
     (buildCombinedResult "hello".toList ⟨["news article".toList], [9/10]⟩
        scenarioFactuality ⟨some 50, some 50, some 50⟩
        ⟨false, .num 0, [], none⟩).credibilityMetrics.truthScore = .num 100) := by
  constructor
  · intro content nc fc m nv f mi fa hf hm hfa
    constructor
    · have hproj :
          (buildCombinedResult content nc fc m nv).credibilityMetrics.credibilityScore =
            JsNum.max2 (.num 0) (JsNum.min2 (.num 100) (JsNum.add
              (JsNum.round (JsNum.sub (JsNum.sub
                (JsNum.mul (scoreAt fc.labels fc.scores "factual".toList) (.num 100))
                (JsNum.mul (scoreAt fc.labels fc.scores "misleading".toList) (.num 50)))
                (JsNum.mul (scoreAt fc.labels fc.scores "false".toList) (.num 100))))
              (.num 50))) := rfl
      rw [hproj, hf, hm, hfa]
      simp only [JsNum.mul_num_num, JsNum.sub_num_num, JsNum.round_num_eq,
        JsNum.add_num_num, JsNum.min2_num_num, JsNum.max2_num_num]
    · have hproj :
          (buildCombinedResult content nc fc m nv).credibilityMetrics.truthScore =
            JsNum.max2 (.num 0) (JsNum.min2 (.num 100) (JsNum.add
              (JsNum.round (JsNum.sub
                (JsNum.mul (scoreAt fc.labels fc.scores "factual".toList) (.num 100))
                (JsNum.mul (scoreAt fc.labels fc.scores "false".toList) (.num 100))))
              (.num 50))) := rfl
      rw [hproj, hf, hfa]
      simp only [JsNum.mul_num_num, JsNum.sub_num_num, JsNum.round_num_eq,
        JsNum.add_num_num, JsNum.min2_num_num, JsNum.max2_num_num]
  · constructor
    · with_unfolding_all decide
    · with_unfolding_all decide

/-- Witness for C2's quantified part at the scenario factuality response. -/
theorem localFusion_formula_witness :
    (buildCombinedResult "w".toList ⟨[], []⟩ scenarioFactuality
      ⟨none, none, none⟩ ⟨false, .num 0, [], none⟩).credibilityMetrics.credibilityScore =
      .num (max 0 (min 100
        (((⌊(7/10 : ℚ) * 100 - (1/10 : ℚ) * 50 - (1/20 : ℚ) * 100 + 1/2⌋ : ℤ) : ℚ) + 50))) :=
  (localFusion_formula_and_scenario.1 "w".toList ⟨[], []⟩ scenarioFactuality
    ⟨none, none, none⟩ ⟨false, .num 0, [], none⟩ (7/10) (1/10) (1/20)
    (by with_unfolding_all decide) (by with_unfolding_all decide)
    (by with_unfolding_all decide)).1

/-- `combineScores` of a clamped local score and an external score in
`[0, 100]` is an integer in `[0, 100]`. -/
theorem combine_clamped_bounds (y e : ℚ) (he0 : 0 ≤ e) (he1 : e ≤ 100) :
    intIn0100 (combineScores
      (JsNum.max2 (.num 0) (JsNum.min2 (.num 100) (.num y))) (.num e)) := by
  have hl0 : (0 : ℚ) ≤ max 0 (min 100 y) := le_max_left _ _
  have hl1 : max 0 (min 100 y) ≤ 100 := max_le (by norm_num) (min_le_left _ _)
  unfold combineScores
  simp only [JsNum.max2_num_num, JsNum.min2_num_num, JsNum.mul_num_num,
    JsNum.add_num_num, JsNum.round_num_eq]
  refine ⟨⌊max 0 (min 100 y) * (6/10) + e * (4/10) + 1/2⌋, rfl, ?_, ?_⟩
  · exact (round_bounds _
      (add_nonneg (mul_nonneg hl0 (by norm_num)) (mul_nonneg he0 (by norm_num)))
      (by linarith)).1
  · exact (round_bounds _
      (add_nonneg (mul_nonneg hl0 (by norm_num)) (mul_nonneg he0 (by norm_num)))
      (by linarith)).2

/-- The combined confidence — the rounded average of the rounded top
content-type score and the external confidence — is an integer in `[0, 100]`
when the top score is in `[0, 1]` and the external confidence in `[0, 100]`. -/
theorem confidence_combined_bounds (s0 : ℚ) (h0 : 0 ≤ s0) (h1 : s0 ≤ 1)
    (mco : ℚ) (hm0 : 0 ≤ mco) (hm1 : mco ≤ 100) :
    intIn0100 (JsNum.round (JsNum.div
      (JsNum.add (JsNum.round (JsNum.mul (.num s0) (.num 100))) (.num mco))
      (.num 2))) := by
  simp only [JsNum.mul_num_num, JsNum.round_num_eq, JsNum.add_num_num]
  rw [JsNum.div_num_num _ 2 (by norm_num), JsNum.round_num_eq]
  have hc := round_bounds (s0 * 100) (by positivity) (by linarith)
  have hcq1 : (0 : ℚ) ≤ ((⌊s0 * 100 + 1/2⌋ : ℤ) : ℚ) := by exact_mod_cast hc.1
  have hcq2 : ((⌊s0 * 100 + 1/2⌋ : ℤ) : ℚ) ≤ 100 := by exact_mod_cast hc.2
  refine ⟨⌊(((⌊s0 * 100 + 1/2⌋ : ℤ) : ℚ) + mco) / 2 + 1/2⌋, rfl, ?_, ?_⟩
  · exact (round_bounds _ (by linarith) (by linarith)).1
  · exact (round_bounds _ (by linarith) (by linarith)).2

/-- C1 (amended): provided the Mistral fields are present and in `[0, 100]`,
the top content-type score is present and in `[0, 1]`, the three factuality
labels used by the score arithmetic are present, and the news-verification
confidence is an integer in `[0, 100]`, every field of `combinedMetrics` is
an integer in `[0, 100]`. -/
theorem combinedMetrics_bounded_of_valid_inputs
    (content : Text) (hc : content ≠ [])
    (nc fc : ClassifierResponse) (m : MistralResult) (news : NewsOutcome)
    (s0 : ℚ) (hs0 : nc.scores.head? = some s0) (hs0a : 0 ≤ s0) (hs0b : s0 ≤ 1)
    (f mi fa : ℚ)
    (hf : scoreAt fc.labels fc.scores "factual".toList = .num f)
    (hm : scoreAt fc.labels fc.scores "misleading".toList = .num mi)
    (hfa : scoreAt fc.labels fc.scores "false".toList = .num fa)
    (mc : ℚ) (hmc : m.credibilityScore = some mc) (hmc0 : 0 ≤ mc) (hmc1 : mc ≤ 100)
    (mt : ℚ) (hmt : m.truthScore = some mt) (hmt0 : 0 ≤ mt) (hmt1 : mt ≤ 100)
    (mco : ℚ) (hmco : m.confidence = some mco) (hmco0 : 0 ≤ mco) (hmco1 : mco ≤ 100)
    (nr : ℤ) (hnr : (verifyWithNewsAPI content news).confidence = .num (nr : ℚ))
    (hnr0 : 0 ≤ nr) (hnr1 : nr ≤ 100) :
    ∃ r, checkContent (some content) (.ok nc) (.ok fc) (.ok m) news = .okReport r ∧
      intIn0100 r.combinedMetrics.credibilityScore ∧
      intIn0100 r.combinedMetrics.truthScore ∧
      intIn0100 r.combinedMetrics.confidence ∧
      intIn0100 r.combinedMetrics.newsReliability := by
  refine ⟨buildCombinedResult content nc fc m (verifyWithNewsAPI content news),
    ?_, ?_, ?_, ?_, ?_⟩
  · show (if content = [] then ApiResponse.badRequest "Content is required".toList
          else ApiResponse.okReport
            (buildCombinedResult content nc fc m (verifyWithNewsAPI content news))) = _
    rw [if_neg hc]
  · have hproj :
        (buildCombinedResult content nc fc m
          (verifyWithNewsAPI content news)).combinedMetrics.credibilityScore =
          combineScores (JsNum.max2 (.num 0) (JsNum.min2 (.num 100) (JsNum.add
            (JsNum.round (JsNum.sub (JsNum.sub
              (JsNum.mul (scoreAt fc.labels fc.scores "factual".toList) (.num 100))
              (JsNum.mul (scoreAt fc.labels fc.scores "misleading".toList) (.num 50)))
              (JsNum.mul (scoreAt fc.labels fc.scores "false".toList) (.num 100))))
            (.num 50)))) (jsOfOpt m.credibilityScore) := rfl
    rw [hproj, hf, hm, hfa, hmc]
    simp only [JsNum.mul_num_num, JsNum.sub_num_num, JsNum.round_num_eq,
      JsNum.add_num_num, jsOfOpt]
    exact combine_clamped_bounds _ mc hmc0 hmc1
  · have hproj :
        (buildCombinedResult content nc fc m
          (verifyWithNewsAPI content news)).combinedMetrics.truthScore =
          combineScores (JsNum.max2 (.num 0) (JsNum.min2 (.num 100) (JsNum.add
            (JsNum.round (JsNum.sub
              (JsNum.mul (scoreAt fc.labels fc.scores "factual".toList) (.num 100))
              (JsNum.mul (scoreAt fc.labels fc.scores "false".toList) (.num 100))))
            (.num 50)))) (jsOfOpt m.truthScore) := rfl
    rw [hproj, hf, hfa, hmt]
    simp only [JsNum.mul_num_num, JsNum.sub_num_num, JsNum.round_num_eq,
      JsNum.add_num_num, jsOfOpt]
    exact combine_clamped_bounds _ mt hmt0 hmt1
  · have hproj :
        (buildCombinedResult content nc fc m
          (verifyWithNewsAPI content news)).combinedMetrics.confidence =
          JsNum.round (JsNum.div
            (JsNum.add (JsNum.round (JsNum.mul (jsOfOpt nc.scores.head?) (.num 100)))
              (jsOfOpt m.confidence)) (.num 2)) := rfl
    rw [hproj, hs0, hmco]
    simp only [jsOfOpt]
    exact confidence_combined_bounds s0 hs0a hs0b mco hmco0 hmco1
  · have hproj :
        (buildCombinedResult content nc fc m
          (verifyWithNewsAPI content news)).combinedMetrics.newsReliability =
          (verifyWithNewsAPI content news).confidence := rfl
    rw [hproj, hnr]
    exact ⟨nr, rfl, hnr0, hnr1⟩

/-- Counterexample for C1: the claim fails for values the external services
can return.  A Mistral `credibilityScore` of 200 drives the combined
credibility score to 140, and an article list on which the similarity
exceeds 1 drives `newsReliability` to 200 — both outside `[0, 100]`. -/
theorem combinedMetrics_exceed_range_concrete :
    ((apiReport (checkContent (some "hello".toList)
        (.ok ⟨["news article".toList], [9/10]⟩) (.ok scenarioFactuality)
        (.ok ⟨some 200, some 50, some 50⟩) (.resp "ok".toList []))).map
      (fun r => r.combinedMetrics.credibilityScore) = some (.num 140)) ∧
    ((apiReport (checkContent (some "x x".toList)
        (.ok ⟨["news article".toList], [9/10]⟩) (.ok scenarioFactuality)
        (.ok ⟨some 50, some 50, some 50⟩)
        (.resp "ok".toList
          [⟨"x".toList, [], "src".toList, "u".toList, "p".toList⟩]))).map
      (fun r => r.combinedMetrics.newsReliability) = some (.num 200)) ∧
    ¬ ((140 : ℚ) ≤ 100) ∧ ¬ ((200 : ℚ) ≤ 100) := by
  with_unfolding_all decide

/-- Witness for C1 (amended) on concrete well-behaved service outputs. -/
theorem combinedMetrics_bounded_witness :
    ∃ r, checkContent (some "hello".toList)
        (.ok ⟨["news article".toList], [9/10]⟩) (.ok scenarioFactuality)
        (.ok ⟨some 50, some 50, some 50⟩) (.resp "ok".toList []) =
          .okReport r ∧
      intIn0100 r.combinedMetrics.credibilityScore ∧
      intIn0100 r.combinedMetrics.truthScore ∧
      intIn0100 r.combinedMetrics.confidence ∧
      intIn0100 r.combinedMetrics.newsReliability :=
  combinedMetrics_bounded_of_valid_inputs "hello".toList (by decide)
    ⟨["news article".toList], [9/10]⟩ scenarioFactuality
    ⟨some 50, some 50, some 50⟩ (.resp "ok".toList [])
    (9/10) (by with_unfolding_all decide) (by norm_num) (by norm_num)
    (7/10) (1/10) (1/20)
    (by with_unfolding_all decide) (by with_unfolding_all decide)
    (by with_unfolding_all decide)
    50 (by with_unfolding_all decide) (by norm_num) (by norm_num)
    50 (by with_unfolding_all decide) (by norm_num) (by norm_num)
    50 (by with_unfolding_all decide) (by norm_num) (by norm_num)
    0 (by with_unfolding_all decide) (by norm_num) (by norm_num)
